import Mathlib

/-!
Verification development for the mxvm binding layer (src/src/mxvm.tsx).

The registry (`DefaultViewModelRegistry`) is a JS `Map` from view-model
identifiers to JS `Set`s of instances.  We embed identifiers and instances as
natural numbers (distinct numbers model distinct object references), a `Set`
as a duplicate-free insertion-ordered list, and the `Map` as an association
list in insertion order.  All operations mirror the source line by line.
-/

namespace Mxvm

/-- `ViewModelIdentifier`: an opaque key; equality is reference/value equality. -/
abbrev Ident := Nat

/-- `ViewModel`: an opaque instance; equality is reference equality. -/
abbrev Inst := Nat

/-- JS `Set.prototype.add`: appends the element if not already present
(a `Set` keeps insertion order and holds no duplicates). -/
def setAdd (s : List Inst) (v : Inst) : List Inst :=
  if v ∈ s then s else s ++ [v]

/-- JS `Set.prototype.delete`: removes the element (a `Set` holds no
duplicates, so removing every occurrence is the same operation). -/
def setDelete (s : List Inst) (v : Inst) : List Inst :=
  s.filter (fun x => x != v)

/-- The backing store of `DefaultViewModelRegistry._buckets`. -/
abbrev Buckets := List (Ident × List Inst)

/-- JS `Map.prototype.get`. -/
def bucketsGet (bs : Buckets) (k : Ident) : Option (List Inst) :=
  (bs.find? (fun p => p.1 == k)).map Prod.snd

/-- JS `Map.prototype.set`: updates the entry in place if the key is present
(keeping its position), otherwise appends a new entry. -/
def bucketsSet (bs : Buckets) (k : Ident) (s : List Inst) : Buckets :=
  match bs with
  | [] => [(k, s)]
  | p :: rest => if p.1 == k then (k, s) :: rest else p :: bucketsSet rest k s

/-- JS `Map.prototype.delete` (a `Map` has at most one entry per key). -/
def bucketsDelete (bs : Buckets) (k : Ident) : Buckets :=
  bs.filter (fun p => p.1 != k)

/-- `DefaultViewModelRegistry`: the `_buckets` observable map. -/
structure Registry where
  buckets : Buckets
deriving DecidableEq

/-- A fresh registry, as produced by `new DefaultViewModelRegistry()`. -/
def Registry.empty : Registry := ⟨[]⟩

/-- `DefaultViewModelRegistry.addInstance`: fetch the identifier's set,
creating an empty one first when absent, then `add` the model to it. -/
def addInstance (r : Registry) (k : Ident) (v : Inst) : Registry :=
  match bucketsGet r.buckets k with
  | none => ⟨bucketsSet r.buckets k (setAdd [] v)⟩
  | some s => ⟨bucketsSet r.buckets k (setAdd s v)⟩

/-- `DefaultViewModelRegistry.removeInstance`: if the identifier's set exists,
`delete` the model from it, and when the set became empty delete the whole
entry from the map. -/
def removeInstance (r : Registry) (k : Ident) (v : Inst) : Registry :=
  match bucketsGet r.buckets k with
  | none => r
  | some s =>
      let s' := setDelete s v
      if s'.length = 0 then ⟨bucketsDelete r.buckets k⟩
      else ⟨bucketsSet r.buckets k s'⟩

/-- The `instances` getter (the spec's `snapshot()`): the full mapping. -/
def Registry.instances (r : Registry) : Buckets := r.buckets

/-- `ViewModelLocator.locateMany`: `Array.from(instances.get(id) or empty)`. -/
def locateMany (r : Registry) (k : Ident) : List Inst :=
  (bucketsGet r.buckets k).getD []

/-- `ViewModelLocator.locateFirst`: `locateMany(id)[0] or null`. -/
def locateFirst (r : Registry) (k : Ident) : Option Inst :=
  (locateMany r k).head?

theorem mem_setAdd_self (s : List Inst) (v : Inst) : v ∈ setAdd s v := by
  unfold setAdd
  split
  · assumption
  · simp

theorem setAdd_of_mem {s : List Inst} {v : Inst} (h : v ∈ s) : setAdd s v = s := by
  unfold setAdd
  exact if_pos h

theorem setAdd_ne_nil (s : List Inst) (v : Inst) : setAdd s v ≠ [] := by
  unfold setAdd
  split
  · intro hnil
    subst hnil
    simp_all
  · simp

theorem not_mem_setDelete_self (s : List Inst) (v : Inst) : v ∉ setDelete s v := by
  simp [setDelete]

theorem setDelete_of_not_mem {s : List Inst} {v : Inst} (h : v ∉ s) :
    setDelete s v = s := by
  unfold setDelete
  apply List.filter_eq_self.mpr
  intro a ha
  simp only [bne_iff_ne, ne_eq, decide_eq_true_eq]
  intro hav
  exact h (hav ▸ ha)

theorem bucketsGet_set_self (bs : Buckets) (k : Ident) (s : List Inst) :
    bucketsGet (bucketsSet bs k s) k = some s := by
  induction bs with
  | nil => simp [bucketsSet, bucketsGet, List.find?]
  | cons p rest ih =>
      by_cases h : p.1 = k
      · simp [bucketsSet, h, bucketsGet, List.find?]
      · simp only [bucketsSet, beq_iff_eq, h, if_false]
        simpa [bucketsGet, List.find?_cons, h] using ih

theorem bucketsGet_delete_self (bs : Buckets) (k : Ident) :
    bucketsGet (bucketsDelete bs k) k = none := by
  simp only [bucketsGet, bucketsDelete, Option.map_eq_none']
  rw [List.find?_eq_none]
  intro p hp
  have h1 := List.of_mem_filter hp
  simp only [bne_iff_ne, ne_eq] at h1
  simp [h1]

theorem bucketsSet_eq_of_get {bs : Buckets} {k : Ident} {s : List Inst}
    (h : bucketsGet bs k = some s) : bucketsSet bs k s = bs := by
  induction bs with
  | nil => simp [bucketsGet, List.find?] at h
  | cons p rest ih =>
      obtain ⟨k₀, s₀⟩ := p
      by_cases hp : k₀ = k
      · have hs : s₀ = s := by
          simpa [bucketsGet, List.find?_cons, hp] using h
        simp [bucketsSet, hp, hs]
      · have h' : bucketsGet rest k = some s := by
          simpa [bucketsGet, List.find?_cons, hp] using h
        simp [bucketsSet, hp, ih h']

theorem mem_of_bucketsGet {bs : Buckets} {k : Ident} {s : List Inst}
    (h : bucketsGet bs k = some s) : (k, s) ∈ bs := by
  unfold bucketsGet at h
  obtain ⟨p, hfind, hsnd⟩ := Option.map_eq_some.mp h
  have hmem := List.mem_of_find?_eq_some hfind
  have hkey : p.1 = k := by
    have := List.find?_some hfind
    simpa using this
  obtain ⟨a, b⟩ := p
  simp only at hkey hsnd
  rw [← hkey, ← hsnd]
  exact hmem

theorem mem_locateMany_add_self (r : Registry) (k : Ident) (v : Inst) :
    v ∈ locateMany (addInstance r k v) k := by
  unfold addInstance
  cases hg : bucketsGet r.buckets k with
  | none => simpa [locateMany, bucketsGet_set_self] using mem_setAdd_self [] v
  | some s => simpa [locateMany, bucketsGet_set_self] using mem_setAdd_self s v

theorem not_mem_locateMany_remove (r : Registry) (k : Ident) (v : Inst) :
    v ∉ locateMany (removeInstance r k v) k := by
  unfold removeInstance
  cases hg : bucketsGet r.buckets k with
  | none => simp [locateMany, hg]
  | some s =>
      simp only
      split
      · simp [locateMany, bucketsGet_delete_self]
      · simpa [locateMany, bucketsGet_set_self] using not_mem_setDelete_self s v

theorem locateMany_add_of_none {r : Registry} {k : Ident} (v : Inst)
    (h : bucketsGet r.buckets k = none) :
    locateMany (addInstance r k v) k = [v] := by
  unfold addInstance
  rw [h]
  simp [locateMany, bucketsGet_set_self, setAdd]

theorem removeInstance_get_none {r : Registry} {k : Ident} {v : Inst}
    (h : bucketsGet r.buckets k = some [v]) :
    bucketsGet (removeInstance r k v).buckets k = none := by
  unfold removeInstance
  rw [h]
  simp only [setDelete, List.filter_cons, bne_self_eq_false, List.filter_nil]
  simp [bucketsGet_delete_self]

/-- C2 helper: the bucket found after a removal that keeps the entry. -/
theorem locateMany_remove_of_none {r : Registry} {k : Ident} (v : Inst)
    (h : bucketsGet r.buckets k = none) :
    locateMany (removeInstance r k v) k = [] := by
  unfold removeInstance
  rw [h]
  simp [locateMany, h]

/-- C2: for every identifier `k`, instance `v` and registry state, after
`add(k,v)` the sequence `locateMany(k)` contains `v`, and after a subsequent
`remove(k,v)` it no longer contains `v` (count zero). -/
theorem add_then_remove_locate (r : Registry) (k : Ident) (v : Inst) :
    v ∈ locateMany (addInstance r k v) k ∧
    (locateMany (removeInstance (addInstance r k v) k v) k).count v = 0 := by
  refine ⟨mem_locateMany_add_self r k v, ?_⟩
  exact List.count_eq_zero.mpr (not_mem_locateMany_remove (addInstance r k v) k v)

/-- The registry invariant: every entry of the mapping has a non-empty
instance set, i.e. an identifier is present iff its set is non-empty. -/
def NonemptyInv (r : Registry) : Prop :=
  ∀ p ∈ r.buckets, p.2 ≠ []

instance instDecidableNonemptyInv (r : Registry) : Decidable (NonemptyInv r) :=
  inferInstanceAs (Decidable (∀ p ∈ r.buckets, p.2 ≠ []))

theorem nonemptyInv_empty : NonemptyInv Registry.empty := by
  intro p hp
  simp [Registry.empty] at hp

theorem mem_bucketsSet {bs : Buckets} {k : Ident} {s : List Inst} {p : Ident × List Inst}
    (h : p ∈ bucketsSet bs k s) : p = (k, s) ∨ p ∈ bs := by
  induction bs with
  | nil => simp [bucketsSet] at h; simp [h]
  | cons q rest ih =>
      by_cases hq : q.1 = k
      · simp only [bucketsSet, hq, beq_self_eq_true, if_true, List.mem_cons] at h
        rcases h with h | h
        · exact Or.inl h
        · exact Or.inr (List.mem_cons_of_mem q h)
      · simp only [bucketsSet, beq_iff_eq, hq, if_false, List.mem_cons] at h
        rcases h with h | h
        · exact Or.inr (by simp [h])
        · rcases ih h with h' | h'
          · exact Or.inl h'
          · exact Or.inr (List.mem_cons_of_mem q h')

theorem nonemptyInv_add {r : Registry} (hr : NonemptyInv r) (k : Ident) (v : Inst) :
    NonemptyInv (addInstance r k v) := by
  unfold addInstance
  cases hg : bucketsGet r.buckets k with
  | none =>
      intro p hp
      rcases mem_bucketsSet hp with h | h
      · rw [h]; exact setAdd_ne_nil [] v
      · exact hr p h
  | some s =>
      intro p hp
      rcases mem_bucketsSet hp with h | h
      · rw [h]; exact setAdd_ne_nil s v
      · exact hr p h

theorem nonemptyInv_remove {r : Registry} (hr : NonemptyInv r) (k : Ident) (v : Inst) :
    NonemptyInv (removeInstance r k v) := by
  unfold removeInstance
  cases hg : bucketsGet r.buckets k with
  | none => exact hr
  | some s =>
      simp only
      split
      · intro p hp
        exact hr p (List.mem_of_mem_filter hp)
      · intro p hp
        rcases mem_bucketsSet hp with h | h
        · rw [h]
          simp only [ne_eq]
          intro hnil
          simp_all
        · exact hr p h

theorem bucketsGet_nonempty {r : Registry} (hr : NonemptyInv r) (k : Ident)
    {s : List Inst} (h : bucketsGet r.buckets k = some s) : s ≠ [] :=
  hr (k, s) (mem_of_bucketsGet h)

/-- C3: the registry starts with, and `addInstance`/`removeInstance` preserve,
the invariant that an identifier entry exists iff its instance set is
non-empty; in particular every bucket reachable by lookup is non-empty, and
removing the last instance under an identifier deletes that identifier's entry
entirely, so the subsequent `instances` snapshot has no such key. -/
theorem registry_nonempty_invariant :
    NonemptyInv Registry.empty
    ∧ (∀ (r : Registry) (k : Ident) (v : Inst), NonemptyInv r → NonemptyInv (addInstance r k v))
    ∧ (∀ (r : Registry) (k : Ident) (v : Inst), NonemptyInv r → NonemptyInv (removeInstance r k v))
    ∧ (∀ (r : Registry) (k : Ident) (s : List Inst), NonemptyInv r →
        bucketsGet r.buckets k = some s → s ≠ [])
    ∧ (∀ (r : Registry) (k : Ident) (v : Inst), bucketsGet r.buckets k = some [v] →
        ∀ p ∈ (removeInstance r k v).instances, p.1 ≠ k) := by
  refine ⟨nonemptyInv_empty, fun r k v hr => nonemptyInv_add hr k v,
    fun r k v hr => nonemptyInv_remove hr k v,
    fun r k s hr h => bucketsGet_nonempty hr k h, fun r k v h p hp => ?_⟩
  unfold removeInstance at hp
  rw [h] at hp
  simp only [setDelete, List.filter_cons, bne_self_eq_false, List.filter_nil,
    List.length_nil, if_pos rfl] at hp
  have := List.of_mem_filter hp
  simpa using this

/-- Witness for C3 at concrete inputs. -/
theorem registry_nonempty_invariant_witness :
    NonemptyInv (addInstance (⟨[(0, [5])]⟩ : Registry) 1 7)
    ∧ (∀ p ∈ (removeInstance (⟨[(0, [5]), (2, [9])]⟩ : Registry) 0 5).instances, p.1 ≠ 0) :=
  ⟨registry_nonempty_invariant.2.1 (⟨[(0, [5])]⟩ : Registry) 1 7 (by decide),
    registry_nonempty_invariant.2.2.2.2 (⟨[(0, [5]), (2, [9])]⟩ : Registry) 0 5 (by decide)⟩

/-- C7: the registry operations are total no-ops on redundant input:
adding an instance already present under the identifier leaves the state
unchanged (set semantics); removing under an absent identifier, or removing
an instance that is not present (in any invariant-respecting state), leaves
the state unchanged. -/
theorem registry_ops_noop :
    (∀ (r : Registry) (k : Ident) (v : Inst) (s : List Inst),
      bucketsGet r.buckets k = some s → v ∈ s → addInstance r k v = r)
    ∧ (∀ (r : Registry) (k : Ident) (v : Inst),
      bucketsGet r.buckets k = none → removeInstance r k v = r)
    ∧ (∀ (r : Registry) (k : Ident) (v : Inst), NonemptyInv r →
      v ∉ locateMany r k → removeInstance r k v = r) := by
  refine ⟨fun r k v s hg hv => ?_, fun r k v hg => ?_, fun r k v hr hv => ?_⟩
  · unfold addInstance
    rw [hg]
    show (⟨bucketsSet r.buckets k (setAdd s v)⟩ : Registry) = r
    rw [setAdd_of_mem hv, bucketsSet_eq_of_get hg]
  · unfold removeInstance
    rw [hg]
  · unfold removeInstance
    cases hg : bucketsGet r.buckets k with
    | none => rfl
    | some s =>
        have hvs : v ∉ s := by
          intro hmem
          exact hv (by simpa [locateMany, hg] using hmem)
        have hdel : setDelete s v = s := setDelete_of_not_mem hvs
        have hne : s ≠ [] := bucketsGet_nonempty hr k hg
        simp only [hdel]
        rw [if_neg (by simpa [List.length_eq_zero] using hne)]
        rw [bucketsSet_eq_of_get hg]

/-- Witness for C7 at concrete inputs. -/
theorem registry_ops_noop_witness :
    addInstance (⟨[(0, [5, 6])]⟩ : Registry) 0 6 = (⟨[(0, [5, 6])]⟩ : Registry)
    ∧ removeInstance (⟨[(0, [5])]⟩ : Registry) 3 5 = (⟨[(0, [5])]⟩ : Registry)
    ∧ removeInstance (⟨[(0, [5])]⟩ : Registry) 0 7 = (⟨[(0, [5])]⟩ : Registry) :=
  ⟨registry_ops_noop.1 (⟨[(0, [5, 6])]⟩ : Registry) 0 6 [5, 6] (by decide) (by decide),
    registry_ops_noop.2.1 (⟨[(0, [5])]⟩ : Registry) 3 5 (by decide),
    registry_ops_noop.2.2 (⟨[(0, [5])]⟩ : Registry) 0 7 (by decide) (by decide)⟩

/-!
The `Binder` component (src/src/mxvm.tsx lines 137-201).

Its observable behaviour is a sequence of events: calls to the externally
supplied resolver, the `onBind`/`onUnbind` callbacks (wired by
`bindViewModel` to `registry.addInstance`/`registry.removeInstance`), and the
reflective lifecycle dispatches `onActivate`/`onViewLoaded`/`onDeactivate`
(each a no-op when the instance does not implement the method).  We embed
each React lifecycle method as a function producing the event list it emits,
in source order.
-/

/-- Which lifecycle methods an instance implements
(`notifyOfViewLifecycle` dispatches only those that are present). -/
structure VMCaps where
  hasActivate : Bool
  hasViewLoaded : Bool
  hasDeactivate : Bool
deriving DecidableEq

/-- One observable step of a `Binder`: `resolve` is the model-resolution step
(explicit `viewModel` prop or a resolver call), `bind`/`unbind` are the
`onBind`/`onUnbind` callbacks (registry registration/unregistration), and the
rest are lifecycle dispatches to the named instance. -/
inductive Event where
  | resolve (vm : Inst)
  | bind (vm : Inst)
  | unbind (vm : Inst)
  | activate (vm : Inst)
  | viewLoaded (vm : Inst)
  | deactivate (vm : Inst)
deriving DecidableEq

/-- `BinderProps`: the externally supplied `viewModel` (optional), the
identifier, and the remaining props forwarded to the resolver (opaque). -/
structure BinderProps where
  viewModel : Option Inst
  viewModelIdentifier : Ident
  restProps : Nat
deriving DecidableEq

/-- The externally supplied `ViewModelResolver`: `(identifier, props?) => vm`.
The hook calls it without a props argument, hence the `Option`. -/
abbrev Resolver := Ident → Option Nat → Inst

/-- `Binder.resolveModel`: `viewModel || viewModelResolver(identifier, props)`;
an explicitly supplied instance takes priority. -/
def resolveModel (resolver : Resolver) (props : BinderProps) : Inst :=
  match props.viewModel with
  | some vm => vm
  | none => resolver props.viewModelIdentifier (some props.restProps)

/-- `Binder` component state: the currently bound model. -/
structure BinderState where
  model : Inst
deriving DecidableEq

/-- `notifyOfViewLifecycle(x => x.onActivate, ...)`. -/
def notifyActivate (caps : Inst → VMCaps) (m : Inst) : List Event :=
  if (caps m).hasActivate then [Event.activate m] else []

/-- `notifyOfViewLifecycle(x => x.onViewLoaded, ...)`. -/
def notifyViewLoaded (caps : Inst → VMCaps) (m : Inst) : List Event :=
  if (caps m).hasViewLoaded then [Event.viewLoaded m] else []

/-- `notifyOfViewLifecycle(x => x.onDeactivate)`. -/
def notifyDeactivate (caps : Inst → VMCaps) (m : Inst) : List Event :=
  if (caps m).hasDeactivate then [Event.deactivate m] else []

/-- `Binder.constructor`: resolve the model, store it in state, call
`onBind(model)`. -/
def binderConstruct (resolver : Resolver) (props : BinderProps) :
    BinderState × List Event :=
  let m := resolveModel resolver props
  (⟨m⟩, [Event.resolve m, Event.bind m])

/-- `Binder.componentDidMount`: dispatch `onActivate(props)` then
`onViewLoaded(viewRef)` to the current instance. -/
def componentDidMount (caps : Inst → VMCaps) (st : BinderState) : List Event :=
  notifyActivate caps st.model ++ notifyViewLoaded caps st.model

/-- `Binder.componentDidUpdate`: when the `viewModel` prop's identity changed,
dispatch `onDeactivate` to the old instance, call `onUnbind(old)`, resolve the
new model, store it, and call `onBind(new)` in the `setState` callback. -/
def componentDidUpdate (resolver : Resolver) (caps : Inst → VMCaps)
    (prevProps props : BinderProps) (st : BinderState) :
    BinderState × List Event :=
  if props.viewModel ≠ prevProps.viewModel then
    let newModel := resolveModel resolver props
    (⟨newModel⟩,
      notifyDeactivate caps st.model
        ++ [Event.unbind st.model, Event.resolve newModel, Event.bind newModel])
  else (st, [])

/-- `Binder.componentWillUnmount`: dispatch `onDeactivate` to the current
instance, then call `onUnbind(model)`. -/
def componentWillUnmount (caps : Inst → VMCaps) (st : BinderState) : List Event :=
  notifyDeactivate caps st.model ++ [Event.unbind st.model]

/-- The registry effect of one event, with `onBind`/`onUnbind` wired by
`bindViewModel` to `addInstance`/`removeInstance` under the identifier:
lifecycle dispatches and resolution do not touch the registry. -/
def applyEvent (k : Ident) (r : Registry) : Event → Registry
  | Event.bind vm => addInstance r k vm
  | Event.unbind vm => removeInstance r k vm
  | _ => r

/-- Registry after a whole event sequence. -/
def applyEvents (k : Ident) (r : Registry) (es : List Event) : Registry :=
  es.foldl (applyEvent k) r

/-- The registry states visited while an event sequence runs: the initial
state and the state after each event. -/
def traceStates (k : Ident) (r : Registry) : List Event → List Registry
  | [] => [r]
  | e :: es => r :: traceStates k (applyEvent k r e) es

/-- The full event sequence of a mount: construction followed by
`componentDidMount`. -/
def binderMountSequence (resolver : Resolver) (caps : Inst → VMCaps)
    (props : BinderProps) : List Event :=
  (binderConstruct resolver props).2
    ++ componentDidMount caps (binderConstruct resolver props).1

theorem applyEvents_append (k : Ident) (r : Registry) (es₁ es₂ : List Event) :
    applyEvents k r (es₁ ++ es₂) = applyEvents k (applyEvents k r es₁) es₂ :=
  List.foldl_append ..

theorem applyEvents_notifyDeactivate (k : Ident) (r : Registry)
    (caps : Inst → VMCaps) (m : Inst) :
    applyEvents k r (notifyDeactivate caps m) = r := by
  unfold notifyDeactivate
  split
  · rfl
  · rfl

/-- C4: at `Binder` construction an explicitly supplied instance takes
priority over resolver lookup; the resolved instance is registered during
construction, before any UI mount dispatch (the mount sequence starts with
resolution and registration, and everything after is mount dispatch); and
with no explicit instance and an identifier fresh in the registry, the
registry right after construction holds exactly the one instance returned by
the resolver for that identifier and props. -/
theorem binder_construct_registers :
    (∀ (resolver : Resolver) (props : BinderProps) (vm : Inst),
      props.viewModel = some vm → (binderConstruct resolver props).1.model = vm)
    ∧ (∀ (resolver : Resolver) (caps : Inst → VMCaps) (props : BinderProps),
      (binderMountSequence resolver caps props).take 2
          = [Event.resolve (resolveModel resolver props),
             Event.bind (resolveModel resolver props)]
        ∧ ∀ e ∈ (binderMountSequence resolver caps props).drop 2,
            e = Event.activate (resolveModel resolver props)
              ∨ e = Event.viewLoaded (resolveModel resolver props))
    ∧ (∀ (resolver : Resolver) (props : BinderProps) (r : Registry),
      props.viewModel = none →
      bucketsGet r.buckets props.viewModelIdentifier = none →
      locateMany
          (applyEvents props.viewModelIdentifier r (binderConstruct resolver props).2)
          props.viewModelIdentifier
        = [resolver props.viewModelIdentifier (some props.restProps)]) := by
  refine ⟨fun resolver props vm h => ?_, fun resolver caps props => ⟨?_, ?_⟩,
    fun resolver props r hnone hg => ?_⟩
  · simp [binderConstruct, resolveModel, h]
  · simp [binderMountSequence, binderConstruct]
  · intro e he
    cases hA : (caps (resolveModel resolver props)).hasActivate <;>
      cases hV : (caps (resolveModel resolver props)).hasViewLoaded <;>
      simp [binderMountSequence, binderConstruct, componentDidMount,
        notifyActivate, notifyViewLoaded, hA, hV] at he <;>
      simp [he]
  · have : applyEvents props.viewModelIdentifier r (binderConstruct resolver props).2
        = addInstance r props.viewModelIdentifier (resolveModel resolver props) := by
      simp [binderConstruct, applyEvents, applyEvent]
    rw [this]
    have hm : resolveModel resolver props
        = resolver props.viewModelIdentifier (some props.restProps) := by
      simp [resolveModel, hnone]
    rw [hm]
    exact locateMany_add_of_none _ hg

/-- Witness for C4 at concrete inputs. -/
theorem binder_construct_registers_witness :
    (binderConstruct (fun _ _ => 9) ⟨some 5, 0, 0⟩).1.model = 5
    ∧ locateMany (applyEvents 0 Registry.empty
        (binderConstruct (fun _ _ => 9) ⟨none, 0, 3⟩).2) 0 = [9] :=
  ⟨binder_construct_registers.1 (fun _ _ => 9) ⟨some 5, 0, 0⟩ 5 rfl,
    binder_construct_registers.2.2 (fun _ _ => 9) ⟨none, 0, 3⟩ Registry.empty rfl rfl⟩

/-- C5: on mount, `onActivate` then `onViewLoaded` are dispatched to the
currently bound instance in that order; each is dispatched iff the instance
implements the method, and nothing else is dispatched (absence is a silent
no-op). -/
theorem binder_mount_dispatch (caps : Inst → VMCaps) (st : BinderState) :
    (Event.activate st.model ∈ componentDidMount caps st
        ↔ (caps st.model).hasActivate = true)
    ∧ (Event.viewLoaded st.model ∈ componentDidMount caps st
        ↔ (caps st.model).hasViewLoaded = true)
    ∧ (∀ e ∈ componentDidMount caps st,
        e = Event.activate st.model ∨ e = Event.viewLoaded st.model)
    ∧ ((caps st.model).hasActivate = true → (caps st.model).hasViewLoaded = true →
        componentDidMount caps st
          = [Event.activate st.model, Event.viewLoaded st.model]) := by
  cases hA : (caps st.model).hasActivate <;>
    cases hV : (caps st.model).hasViewLoaded <;>
    simp [componentDidMount, notifyActivate, notifyViewLoaded, hA, hV]

/-- Witness for C5 at concrete inputs. -/
theorem binder_mount_dispatch_witness :
    componentDidMount (fun _ => ⟨true, true, true⟩) ⟨4⟩
      = [Event.activate 4, Event.viewLoaded 4] :=
  (binder_mount_dispatch (fun _ => ⟨true, true, true⟩) ⟨4⟩).2.2.2 rfl rfl

/-- C6: on unmount, `onDeactivate` is dispatched strictly before the instance
is unregistered: the deactivation dispatch leaves the registry untouched (the
instance is still locatable during the call), and after the full unmount
sequence the instance is no longer locatable. -/
theorem binder_unmount_deactivate_order (caps : Inst → VMCaps) (st : BinderState)
    (r : Registry) (k : Ident) (h : st.model ∈ locateMany r k) :
    componentWillUnmount caps st
        = notifyDeactivate caps st.model ++ [Event.unbind st.model]
    ∧ applyEvents k r (notifyDeactivate caps st.model) = r
    ∧ st.model ∈ locateMany (applyEvents k r (notifyDeactivate caps st.model)) k
    ∧ st.model ∉ locateMany (applyEvents k r (componentWillUnmount caps st)) k := by
  refine ⟨rfl, applyEvents_notifyDeactivate k r caps st.model, ?_, ?_⟩
  · rw [applyEvents_notifyDeactivate]
    exact h
  · have hsplit : componentWillUnmount caps st
        = notifyDeactivate caps st.model ++ [Event.unbind st.model] := rfl
    rw [hsplit, applyEvents_append, applyEvents_notifyDeactivate]
    simpa [applyEvents, applyEvent] using not_mem_locateMany_remove r k st.model

/-- Witness for C6 at concrete inputs. -/
theorem binder_unmount_deactivate_order_witness :
    5 ∈ locateMany (⟨[(0, [5])]⟩ : Registry) 0
    ∧ 5 ∉ locateMany (applyEvents 0 (⟨[(0, [5])]⟩ : Registry)
        (componentWillUnmount (fun _ => ⟨true, true, true⟩) ⟨5⟩)) 0 :=
  ⟨by decide,
    (binder_unmount_deactivate_order (fun _ => ⟨true, true, true⟩) ⟨5⟩
      (⟨[(0, [5])]⟩ : Registry) 0 (by decide)).2.2.2⟩

/-- C1 counterexample: a rebind in which, after the old instance (1) has been
unregistered and before the new instance (2) has been resolved and
registered, the Registry holds zero instances under the Binder's identifier —
refuting the claim that at no point during the rebind the Registry is visible
with zero instances bound by that Binder.  The registry starts with exactly
the old instance bound; after the first two events of the update sequence
(`onDeactivate` dispatch and `onUnbind`), lookup under the identifier is
empty. -/
theorem binder_rebind_zero_window :
    ((⟨some 2, 0, 0⟩ : BinderProps).viewModel
        ≠ (⟨some 1, 0, 0⟩ : BinderProps).viewModel)
    ∧ locateMany (⟨[(0, [1])]⟩ : Registry) 0 = [1]
    ∧ (componentDidUpdate (fun _ _ => 2) (fun _ => ⟨true, true, true⟩)
        (⟨some 1, 0, 0⟩ : BinderProps) (⟨some 2, 0, 0⟩ : BinderProps) ⟨1⟩).2
      = [Event.deactivate 1, Event.unbind 1, Event.resolve 2, Event.bind 2]
    ∧ locateMany (applyEvents 0 (⟨[(0, [1])]⟩ : Registry)
        ((componentDidUpdate (fun _ _ => 2) (fun _ => ⟨true, true, true⟩)
          (⟨some 1, 0, 0⟩ : BinderProps) (⟨some 2, 0, 0⟩ : BinderProps) ⟨1⟩).2.take 2)) 0
      = [] := by
  refine ⟨by decide, by decide, by decide, by decide⟩

/-- C1 (amended): on a rebind triggered by a `viewModel` prop identity change,
the old instance receives `onDeactivate` and is unregistered before the new
instance is resolved and registered; the Registry never holds two instances
for the Binder during the transition and ends with exactly the new instance —
but there is an intermediate point (between unregistration of the old and
registration of the new instance) at which it holds zero. -/
theorem binder_rebind_transition (resolver : Resolver) (caps : Inst → VMCaps)
    (prevProps props : BinderProps) (st : BinderState) (r : Registry) (k : Ident)
    (hchange : props.viewModel ≠ prevProps.viewModel)
    (hbucket : bucketsGet r.buckets k = some [st.model]) :
    (componentDidUpdate resolver caps prevProps props st).2
        = notifyDeactivate caps st.model
          ++ [Event.unbind st.model,
              Event.resolve (resolveModel resolver props),
              Event.bind (resolveModel resolver props)]
    ∧ (∀ s ∈ traceStates k r (componentDidUpdate resolver caps prevProps props st).2,
        (locateMany s k).length ≤ 1)
    ∧ (∃ s ∈ traceStates k r (componentDidUpdate resolver caps prevProps props st).2,
        locateMany s k = [])
    ∧ locateMany
        (applyEvents k r (componentDidUpdate resolver caps prevProps props st).2) k
      = [resolveModel resolver props] := by
  have hif : (componentDidUpdate resolver caps prevProps props st).2
      = notifyDeactivate caps st.model
        ++ [Event.unbind st.model,
            Event.resolve (resolveModel resolver props),
            Event.bind (resolveModel resolver props)] := by
    unfold componentDidUpdate
    rw [if_pos hchange]
  have hloc : locateMany r k = [st.model] := by simp [locateMany, hbucket]
  have hr₁ : bucketsGet (removeInstance r k st.model).buckets k = none :=
    removeInstance_get_none hbucket
  have hloc₁ : locateMany (removeInstance r k st.model) k = [] := by
    simp [locateMany, hr₁]
  have hloc₂ : locateMany
      (addInstance (removeInstance r k st.model) k (resolveModel resolver props)) k
      = [resolveModel resolver props] :=
    locateMany_add_of_none _ hr₁
  refine ⟨hif, ?_, ?_, ?_⟩
  · rw [hif]
    cases hD : (caps st.model).hasDeactivate
    case false =>
      intro s hs
      simp only [notifyDeactivate, hD, Bool.false_eq_true, if_false,
        List.nil_append, traceStates, applyEvent, List.mem_cons,
        List.not_mem_nil, or_false] at hs
      rcases hs with rfl | rfl | rfl | rfl
      · simp [hloc]
      · simp [hloc₁]
      · simp [hloc₁]
      · simp [hloc₂]
    case true =>
      intro s hs
      simp only [notifyDeactivate, hD, if_true, List.cons_append,
        List.nil_append, traceStates, applyEvent, List.mem_cons,
        List.not_mem_nil, or_false] at hs
      rcases hs with rfl | rfl | rfl | rfl | rfl
      · simp [hloc]
      · simp [hloc]
      · simp [hloc₁]
      · simp [hloc₁]
      · simp [hloc₂]
  · rw [hif]
    refine ⟨removeInstance r k st.model, ?_, hloc₁⟩
    cases hD : (caps st.model).hasDeactivate
    case false => simp [notifyDeactivate, hD, traceStates, applyEvent]
    case true => simp [notifyDeactivate, hD, traceStates, applyEvent]
  · rw [hif, applyEvents_append, applyEvents_notifyDeactivate]
    have : applyEvents k r
        [Event.unbind st.model,
          Event.resolve (resolveModel resolver props),
          Event.bind (resolveModel resolver props)]
        = addInstance (removeInstance r k st.model) k (resolveModel resolver props) := by
      simp [applyEvents, applyEvent]
    rw [this]
    exact hloc₂

/-- Witness for the amended C1 theorem at concrete inputs. -/
theorem binder_rebind_transition_witness :
    ((⟨some 7, 3, 0⟩ : BinderProps).viewModel
        ≠ (⟨none, 3, 0⟩ : BinderProps).viewModel)
    ∧ locateMany (applyEvents 3 (⟨[(3, [4])]⟩ : Registry)
        (componentDidUpdate (fun _ _ => 7) (fun _ => ⟨true, false, true⟩)
          (⟨none, 3, 0⟩ : BinderProps) (⟨some 7, 3, 0⟩ : BinderProps) ⟨4⟩).2) 3
      = [7] :=
  ⟨by decide,
    (binder_rebind_transition (fun _ _ => 7) (fun _ => ⟨true, false, true⟩)
      (⟨none, 3, 0⟩ : BinderProps) (⟨some 7, 3, 0⟩ : BinderProps) ⟨4⟩
      (⟨[(3, [4])]⟩ : Registry) 3 (by decide) (by decide)).2.2.2⟩

/-!
The `useBinder` hook (src/src/mxvm.tsx lines 210-239) and the context entry
points `bindViewModel` / `useViewModel` (lines 265-320).

`useBinder` stores the model with `useState(viewModelResolver(identifier))`
(the resolver is called without a props argument), and runs
`onBind` + `onActivate` in a `useEffect` with an empty dependency array whose
cleanup runs `onDeactivate` + `onUnbind`.  React keeps the stored state across
re-renders and re-runs an effect only when its dependency array differs from
the previous render's; the literal empty array never differs, so the effect
body runs once at mount and the cleanup once at unmount.
-/

/-- React `useState(init)`: returns the stored state when one exists,
otherwise the initializer value (first render). -/
def useStateValue (stored : Option Inst) (init : Inst) : Inst :=
  stored.getD init

/-- The model a `useBinder` render returns:
`useState(viewModelResolver(viewModelIdentifier))`. -/
def useBinderRender (resolver : Resolver) (k : Ident) (stored : Option Inst) : Inst :=
  useStateValue stored (resolver k none)

/-- The `useEffect` body: `onBind(model)` then `onActivate` dispatch. -/
def useBinderEffect (caps : Inst → VMCaps) (m : Inst) : List Event :=
  Event.bind m :: notifyActivate caps m

/-- The `useEffect` cleanup: `onDeactivate` dispatch then `onUnbind(model)`. -/
def useBinderCleanup (caps : Inst → VMCaps) (m : Inst) : List Event :=
  notifyDeactivate caps m ++ [Event.unbind m]

/-- The dependency array passed to `useEffect` in `useBinder`: the literal
empty array, identical on every render. -/
def depsArray : List Nat := []

/-- Events contributed by one re-render: React re-runs the effect (cleanup
then body) only when the dependency array changed since the previous render;
`useBinder` passes the same literal `[]` every time, so nothing runs. -/
def rerenderEvents (caps : Inst → VMCaps) (m : Inst) : List Event :=
  if depsArray = depsArray then [] else useBinderCleanup caps m ++ useBinderEffect caps m

/-- The full event sequence of one mount/unmount cycle of `useBinder`, with
`reRenders` re-renders in between. -/
def useBinderCycleTrace (resolver : Resolver) (k : Ident) (caps : Inst → VMCaps)
    (reRenders : Nat) : List Event :=
  useBinderEffect caps (useBinderRender resolver k none)
    ++ (List.range reRenders).flatMap
        (fun _ => rerenderEvents caps (useBinderRender resolver k none))
    ++ useBinderCleanup caps (useBinderRender resolver k none)

theorem rerenderEvents_eq_nil (caps : Inst → VMCaps) (m : Inst) :
    rerenderEvents caps m = [] := by
  simp [rerenderEvents]

theorem useBinderCycleTrace_eq (resolver : Resolver) (k : Ident)
    (caps : Inst → VMCaps) (n : Nat) :
    useBinderCycleTrace resolver k caps n
      = useBinderEffect caps (useBinderRender resolver k none)
        ++ useBinderCleanup caps (useBinderRender resolver k none) := by
  simp [useBinderCycleTrace, rerenderEvents_eq_nil]

/-- C9: in every mount/unmount cycle of the hook (however many re-renders
happen in between), `onBind` registration and (when implemented) `onActivate`
dispatch happen exactly once, `onDeactivate` dispatch (when implemented) and
`onUnbind` unregistration happen exactly once, unregistration is the final
event, and the stored model is unchanged by re-renders regardless of prop
changes (a re-render may use a different resolver or identifier without
effect). -/
theorem useBinder_once_per_mount (resolver : Resolver) (k : Ident)
    (caps : Inst → VMCaps) (n : Nat) :
    ((useBinderCycleTrace resolver k caps n).count
        (Event.bind (useBinderRender resolver k none)) = 1)
    ∧ ((useBinderCycleTrace resolver k caps n).count
        (Event.unbind (useBinderRender resolver k none)) = 1)
    ∧ ((useBinderCycleTrace resolver k caps n).count
        (Event.activate (useBinderRender resolver k none))
      = cond (caps (useBinderRender resolver k none)).hasActivate 1 0)
    ∧ ((useBinderCycleTrace resolver k caps n).count
        (Event.deactivate (useBinderRender resolver k none))
      = cond (caps (useBinderRender resolver k none)).hasDeactivate 1 0)
    ∧ ((useBinderCycleTrace resolver k caps n).getLast?
      = some (Event.unbind (useBinderRender resolver k none)))
    ∧ (∀ (resolver' : Resolver) (k' : Ident),
        useBinderRender resolver' k' (some (useBinderRender resolver k none))
          = useBinderRender resolver k none) := by
  have hlast : ∀ (resolver' : Resolver) (k' : Ident),
      useBinderRender resolver' k' (some (useBinderRender resolver k none))
        = useBinderRender resolver k none := by
    intro resolver' k'
    simp [useBinderRender, useStateValue]
  rw [useBinderCycleTrace_eq]
  set m := useBinderRender resolver k none with hm
  cases hA : (caps m).hasActivate <;> cases hD : (caps m).hasDeactivate <;>
    simp [useBinderEffect, useBinderCleanup, notifyActivate, notifyDeactivate,
      hA, hD, hlast, List.count_cons, List.count_append]

/-- C10: the hook never dispatches `onViewLoaded` to the bound instance, even
when the instance implements it: no `viewLoaded` event for any instance ever
occurs in a `useBinder` mount/unmount cycle (unlike the `Binder` class, whose
mount sequence dispatches it). -/
theorem useBinder_no_viewLoaded (resolver : Resolver) (k : Ident)
    (caps : Inst → VMCaps) (n : Nat) (vm : Inst) :
    (useBinderCycleTrace resolver k caps n).count (Event.viewLoaded vm) = 0 := by
  rw [useBinderCycleTrace_eq]
  cases hA : (caps (useBinderRender resolver k none)).hasActivate <;>
    cases hD : (caps (useBinderRender resolver k none)).hasDeactivate <;>
    simp [useBinderEffect, useBinderCleanup, notifyActivate, notifyDeactivate,
      hA, hD, List.count_cons, List.count_append]

/-- `MxvmContextProps`: the ambient context, with optional resolver and
registry (both absent in the default context value). -/
structure MxvmContextProps where
  resolver : Option Resolver
  registry : Option Registry

/-- The render function produced by `bindViewModel(id)(component)`: read the
context, fail fast when the resolver or the registry has not been provided,
otherwise produce the `Binder` element configuration (the `Binder` itself is
constructed only afterwards, when that element is rendered). -/
def bindViewModelRender (ctx : MxvmContextProps) (vmIdentifier : Ident)
    (model : Option Inst) (restProps : Nat) : Except String BinderProps :=
  match ctx.resolver with
  | none => Except.error "Resolver has not been provided!"
  | some _ =>
      match ctx.registry with
      | none => Except.error "Registry has not been provided!"
      | some _ => Except.ok ⟨model, vmIdentifier, restProps⟩

/-- `useViewModel(id)`: read the context, fail fast when the resolver or the
registry has not been provided, otherwise delegate to `useBinder` (whose
first render resolves the model). -/
def useViewModelCall (ctx : MxvmContextProps) (k : Ident) : Except String Inst :=
  match ctx.resolver with
  | none => Except.error "Resolver has not been provided!"
  | some res =>
      match ctx.registry with
      | none => Except.error "Registry has not been provided!"
      | some _ => Except.ok (useBinderRender res k none)

/-- C8: both entry points raise an explicit configuration error exactly when
no resolver or no registry is reachable from the ambient context, and the
error is raised instead of producing the `Binder` configuration (so no
`Binder` is constructed or rendered); when both are present no error is
raised. -/
theorem context_config_errors (ctx : MxvmContextProps) (k : Ident)
    (m : Option Inst) (p : Nat) :
    ((∃ e, bindViewModelRender ctx k m p = Except.error e)
        ↔ (ctx.resolver = none ∨ ctx.registry = none))
    ∧ ((∃ b, bindViewModelRender ctx k m p = Except.ok b)
        ↔ (ctx.resolver ≠ none ∧ ctx.registry ≠ none))
    ∧ ((∃ e, useViewModelCall ctx k = Except.error e)
        ↔ (ctx.resolver = none ∨ ctx.registry = none))
    ∧ ((∃ v, useViewModelCall ctx k = Except.ok v)
        ↔ (ctx.resolver ≠ none ∧ ctx.registry ≠ none)) := by
  obtain ⟨res, reg⟩ := ctx
  cases res <;> cases reg <;>
    simp [bindViewModelRender, useViewModelCall]

/-- Witness for C8 at concrete inputs: with an empty context both entry
points raise the configuration error; with a populated context neither does. -/
theorem context_config_errors_witness :
    (∃ e, bindViewModelRender ⟨none, none⟩ 0 none 0 = Except.error e)
    ∧ (∃ v, useViewModelCall ⟨some (fun _ _ => 1), some Registry.empty⟩ 0
        = Except.ok v) :=
  ⟨(context_config_errors ⟨none, none⟩ 0 none 0).1.mpr (Or.inl rfl),
    (context_config_errors ⟨some (fun _ _ => 1), some Registry.empty⟩ 0 none 0).2.2.2.mpr
      ⟨Option.some_ne_none _, Option.some_ne_none _⟩⟩
